import Mathlib

/-!
Verification of the ESP32 bootloader sequencer
(src/main/blink_example_main.c).

The file is boundary glue over vendor SDK calls; its own logic is
sequencing.  We embed it as a trace-producing function over an
environment of oracle outcomes: the sampled boot-pin level, the results
of the NVS (non-volatile storage) initialization calls, the WiFi event
bits observed at the two observation points (return of the bounded wait
inside `wifi_init`, and the `xEventGroupGetBits` check in `app_main`),
and the result of `esp_https_ota` inside the OTA task.

Event-group bits are only ever set (never cleared: both waits pass
`pdFALSE` for clear-on-exit and nothing calls clear), so the bits at
the later observation point include those at the earlier one; this is
the well-formedness condition `Env.wf`.
-/

/-- ESP-IDF error results, as the source compares them: `ESP_OK`, the two
NVS errors named in `app_main`, and any other nonzero error code. -/
inductive EspErr where
  | ok
  | errNvsNoFreePages
  | errNvsNewVersionFound
  | fail (code : Nat)
deriving DecidableEq, Repr

/-- The two WiFi event-group bits: `WIFI_CONNECTED_BIT` (set by the
`IP_EVENT_STA_GOT_IP` handler) and `WIFI_FAIL_BIT` (set by the
`WIFI_EVENT_STA_DISCONNECTED` handler). -/
structure WifiBits where
  connected : Bool
  fail : Bool
deriving DecidableEq, Repr

/-- The two OTA event-group bits: `OTA_SUCCESS_BIT` and `OTA_FAIL_BIT`. -/
structure OtaBits where
  success : Bool
  fail : Bool
deriving DecidableEq, Repr

/-- `should_enter_boot_mode` returns whether the sampled boot-pin level
equals 0 (`boot_pin_state == 0`; low means update/boot mode). -/
def should_enter_boot_mode (bootPinState : Nat) : Bool :=
  bootPinState == 0

/-- The pinned firmware URL (`FIRMWARE_URL`). -/
def FIRMWARE_URL : String :=
  "https://raw.githubusercontent.com/kbmkrishnamali1992-hub/ESP32_TRACKER_V1/main/firmware.bin"

/-- The fields of `esp_http_client_config_t` the OTA task sets. -/
structure EspHttpClientConfig where
  url : String
  crt_bundle_attach : Bool
  timeout_ms : Nat
  keep_alive_enable : Bool
  buffer_size : Nat
  buffer_size_tx : Nat
deriving DecidableEq, Repr

/-- The `http_config` built in `ota_task`: url, certificate bundle,
30000 ms timeout, keep-alive, buffers 2048 (rx) and 1024 (tx). -/
def ota_http_config : EspHttpClientConfig :=
  ⟨FIRMWARE_URL, true, 30000, true, 2048, 1024⟩

/-- Observable steps of the OTA task. -/
inductive OtaAction where
  | espHttpsOta (cfg : EspHttpClientConfig)
  | setSuccessBit
  | setFailBit
  | taskDelete
deriving DecidableEq, Repr

/-- The OTA task (`ota_task`), as a trace indexed by the result `ret` of
`esp_https_ota`: one download-and-flash attempt with `ota_http_config`,
then `OTA_SUCCESS_BIT` if `ret == ESP_OK` else `OTA_FAIL_BIT`, then
self-deletion. -/
def ota_task (ret : EspErr) : List OtaAction :=
  [.espHttpsOta ota_http_config] ++
    (if ret = .ok then [.setSuccessBit] else [.setFailBit]) ++
    [.taskDelete]

/-- The OTA event-group bits after `ota_task` has run with result `ret`:
exactly the one bit the task sets (nothing else touches this group). -/
def ota_task_bits (ret : EspErr) : OtaBits :=
  if ret = .ok then ⟨true, false⟩ else ⟨false, true⟩

/-- Whether an `OtaAction` is the `esp_https_ota` attempt. -/
def OtaAction.isOtaAttempt : OtaAction → Bool
  | .espHttpsOta _ => true
  | _ => false

/-- The branch `app_main` takes after the OTA wait returns with `bits`:
`if (bits & OTA_SUCCESS_BIT) ... else if (bits & OTA_FAIL_BIT) ...`,
with a silent fall-through when neither bit is set. -/
inductive OtaDecision where
  | restartDevice
  | continueAfterFail
  | continueNeither
deriving DecidableEq, Repr

/-- The post-OTA-wait branching of `app_main`: the success bit is tested
first, the fail bit only in its `else`. -/
def ota_wait_branch (bits : OtaBits) : OtaDecision :=
  if bits.success then .restartDevice
  else if bits.fail then .continueAfterFail
  else .continueNeither

/-- Observable steps of the boot sequencer (`app_main` and the helpers
it calls). -/
inductive BootStep where
  | nvsInit
  | nvsErase
  | fatal
  | gpioConfigure
  | gpioRead
  | createOtaGroup
  | createWifiGroup
  | wifiStart
  | wifiWait (timeoutMs : Nat)
  | createTask (name : String)
  | otaWait (bits : OtaBits)
  | delayMs (ms : Nat)
  | restart
  | deleteOtaGroup
  | deleteWifiGroup
deriving DecidableEq, Repr

/-- The NVS startup block of `app_main`: first `nvs_flash_init` returns
`r1`; if `r1` is `ESP_ERR_NVS_NO_FREE_PAGES` or
`ESP_ERR_NVS_NEW_VERSION_FOUND`, erase (`ESP_ERROR_CHECK` aborts if the
erase returns `er ≠ ESP_OK`) and reinitialize once, the retry returning
`r2`; finally `ESP_ERROR_CHECK(ret)` aborts on any remaining error.
Returns the action trace and whether the sequencer survived (no abort). -/
def nvs_startup (r1 er r2 : EspErr) : List BootStep × Bool :=
  if r1 = .errNvsNoFreePages ∨ r1 = .errNvsNewVersionFound then
    if er ≠ .ok then ([.nvsInit, .nvsErase, .fatal], false)
    else if r2 ≠ .ok then ([.nvsInit, .nvsErase, .nvsInit, .fatal], false)
    else ([.nvsInit, .nvsErase, .nvsInit], true)
  else if r1 ≠ .ok then ([.nvsInit, .fatal], false)
  else ([.nvsInit], true)

/-- The trace of `wifi_init`: create the WiFi event group, start the
station, then `xEventGroupWaitBits` on `WIFI_CONNECTED_BIT | WIFI_FAIL_BIT`
with clear-on-exit false, wait-for-all false, and a 10000 ms timeout. -/
def wifi_init_trace : List BootStep :=
  [.createWifiGroup, .wifiStart, .wifiWait 10000]

/-- Oracle outcomes a boot cycle depends on. `wifiWaitBits` are the
event-group bits when the bounded wait inside `wifi_init` returns;
`wifiCheckBits` are the bits at the later `xEventGroupGetBits` check in
`app_main`. -/
structure Env where
  pinLevel : Nat
  nvsRet1 : EspErr
  nvsEraseRet : EspErr
  nvsRet2 : EspErr
  wifiWaitBits : WifiBits
  wifiCheckBits : WifiBits
  otaRet : EspErr
deriving DecidableEq, Repr

/-- Well-formedness of an environment: event-group bits are only ever
set, never cleared, so the bits observed at the `xEventGroupGetBits`
check include those observed when the earlier bounded wait returned. -/
def Env.wf (e : Env) : Bool :=
  (!e.wifiWaitBits.connected || e.wifiCheckBits.connected) &&
    (!e.wifiWaitBits.fail || e.wifiCheckBits.fail)

/-- Whether the NVS startup block completes without a fatal abort. -/
def Env.nvsSurvives (e : Env) : Bool :=
  (nvs_startup e.nvsRet1 e.nvsEraseRet e.nvsRet2).2

/-- The update-mode branch of `app_main`: create the OTA event group,
run `wifi_init`, then check `xEventGroupGetBits(wifi_event_group) &
WIFI_CONNECTED_BIT`.  If set: create `ota_task`, block without timeout
on the OTA bits, and branch by `ota_wait_branch` — restart (after a
3000 ms delay, never returning) on success, otherwise fall through to
the teardown (both event groups deleted) and the application handoff.
If not set: skip OTA and fall through to the same teardown/handoff. -/
def update_branch (env : Env) : List BootStep :=
  [.createOtaGroup] ++ wifi_init_trace ++
    (if env.wifiCheckBits.connected then
      let bits := ota_task_bits env.otaRet
      [.createTask "ota_task", .otaWait bits] ++
        (match ota_wait_branch bits with
          | .restartDevice => [.delayMs 3000, .restart]
          | _ => [.deleteOtaGroup, .deleteWifiGroup, .createTask "app_main_task"])
    else
      [.deleteOtaGroup, .deleteWifiGroup, .createTask "app_main_task"])

/-- The boot sequencer `app_main` as a trace: NVS startup (aborting the
whole sequence on a fatal storage error), GPIO configuration and a
single sample of the boot pin, then either the update-mode branch or,
in normal mode, the direct handoff to the application task. -/
def app_main (env : Env) : List BootStep :=
  if (nvs_startup env.nvsRet1 env.nvsEraseRet env.nvsRet2).2 = false then
    (nvs_startup env.nvsRet1 env.nvsEraseRet env.nvsRet2).1
  else
    (nvs_startup env.nvsRet1 env.nvsEraseRet env.nvsRet2).1 ++
      [.gpioConfigure, .gpioRead] ++
      (if should_enter_boot_mode env.pinLevel then update_branch env
       else [.createTask "app_main_task"])

/-! ## Helper lemmas -/

theorem mem_nvs_startup {r1 er r2 : EspErr} {a : BootStep}
    (h : a ∈ (nvs_startup r1 er r2).1) :
    a = .nvsInit ∨ a = .nvsErase ∨ a = .fatal := by
  unfold nvs_startup at h
  split at h <;> (try split at h) <;> (try split at h) <;> simp_all <;> tauto

theorem nvs_fatal_iff (r1 er r2 : EspErr) :
    BootStep.fatal ∈ (nvs_startup r1 er r2).1 ↔ (nvs_startup r1 er r2).2 = false := by
  unfold nvs_startup
  split <;> (try split) <;> (try split) <;> simp_all

theorem app_main_of_survives (env : Env) (h : env.nvsSurvives = true) :
    app_main env =
      (nvs_startup env.nvsRet1 env.nvsEraseRet env.nvsRet2).1 ++
        [.gpioConfigure, .gpioRead] ++
        (if should_enter_boot_mode env.pinLevel then update_branch env
         else [.createTask "app_main_task"]) := by
  unfold Env.nvsSurvives at h
  unfold app_main
  simp [h]

theorem app_main_of_fatal (env : Env) (h : env.nvsSurvives = false) :
    app_main env = (nvs_startup env.nvsRet1 env.nvsEraseRet env.nvsRet2).1 := by
  unfold Env.nvsSurvives at h
  unfold app_main
  simp [h]

theorem update_branch_noWifi (env : Env) (h : env.wifiCheckBits.connected = false) :
    update_branch env =
      [.createOtaGroup, .createWifiGroup, .wifiStart, .wifiWait 10000,
       .deleteOtaGroup, .deleteWifiGroup, .createTask "app_main_task"] := by
  simp [update_branch, wifi_init_trace, h]

theorem update_branch_otaSuccess (env : Env)
    (hc : env.wifiCheckBits.connected = true) (ho : env.otaRet = .ok) :
    update_branch env =
      [.createOtaGroup, .createWifiGroup, .wifiStart, .wifiWait 10000,
       .createTask "ota_task", .otaWait ⟨true, false⟩, .delayMs 3000, .restart] := by
  simp [update_branch, wifi_init_trace, hc, ho, ota_task_bits, ota_wait_branch]

theorem not_mem_nvs_startup {r1 er r2 : EspErr} {a : BootStep}
    (ha1 : a ≠ .nvsInit) (ha2 : a ≠ .nvsErase) (ha3 : a ≠ .fatal) :
    a ∉ (nvs_startup r1 er r2).1 := fun h => by
  rcases mem_nvs_startup h with h | h | h
  · exact ha1 h
  · exact ha2 h
  · exact ha3 h

theorem update_branch_otaFail (env : Env)
    (hc : env.wifiCheckBits.connected = true) (ho : env.otaRet ≠ .ok) :
    update_branch env =
      [.createOtaGroup, .createWifiGroup, .wifiStart, .wifiWait 10000,
       .createTask "ota_task", .otaWait ⟨false, true⟩,
       .deleteOtaGroup, .deleteWifiGroup, .createTask "app_main_task"] := by
  simp [update_branch, wifi_init_trace, hc, ho, ota_task_bits, ota_wait_branch]

theorem not_mem_append_nvs {r1 er r2 : EspErr} {a : BootStep} {l : List BootStep}
    (ha1 : a ≠ .nvsInit) (ha2 : a ≠ .nvsErase) (ha3 : a ≠ .fatal) (hl : a ∉ l) :
    a ∉ (nvs_startup r1 er r2).1 ++ l := by
  intro h
  rcases List.mem_append.mp h with h | h
  · exact not_mem_nvs_startup ha1 ha2 ha3 h
  · exact hl h

theorem fatal_not_mem_append {r1 er r2 : EspErr} {l : List BootStep}
    (h2 : (nvs_startup r1 er r2).2 = true) (hl : BootStep.fatal ∉ l) :
    BootStep.fatal ∉ (nvs_startup r1 er r2).1 ++ l := by
  intro h
  rcases List.mem_append.mp h with h | h
  · rw [nvs_fatal_iff] at h
    rw [h] at h2
    exact absurd h2 (by decide)
  · exact hl h

/-- Exhaustive case analysis of the boot sequencer's trace: the fatal-NVS
shape, the normal-mode shape, and the three update-mode shapes (WiFi not
connected at the check, OTA success, OTA failure). -/
theorem app_main_shape (env : Env) :
    (env.nvsSurvives = false ∧
      app_main env = (nvs_startup env.nvsRet1 env.nvsEraseRet env.nvsRet2).1) ∨
    (env.nvsSurvives = true ∧ should_enter_boot_mode env.pinLevel = false ∧
      app_main env = (nvs_startup env.nvsRet1 env.nvsEraseRet env.nvsRet2).1 ++
        [.gpioConfigure, .gpioRead, .createTask "app_main_task"]) ∨
    (env.nvsSurvives = true ∧ should_enter_boot_mode env.pinLevel = true ∧
      env.wifiCheckBits.connected = false ∧
      app_main env = (nvs_startup env.nvsRet1 env.nvsEraseRet env.nvsRet2).1 ++
        [.gpioConfigure, .gpioRead, .createOtaGroup, .createWifiGroup, .wifiStart,
         .wifiWait 10000, .deleteOtaGroup, .deleteWifiGroup,
         .createTask "app_main_task"]) ∨
    (env.nvsSurvives = true ∧ should_enter_boot_mode env.pinLevel = true ∧
      env.wifiCheckBits.connected = true ∧ env.otaRet = .ok ∧
      app_main env = (nvs_startup env.nvsRet1 env.nvsEraseRet env.nvsRet2).1 ++
        [.gpioConfigure, .gpioRead, .createOtaGroup, .createWifiGroup, .wifiStart,
         .wifiWait 10000, .createTask "ota_task", .otaWait ⟨true, false⟩,
         .delayMs 3000, .restart]) ∨
    (env.nvsSurvives = true ∧ should_enter_boot_mode env.pinLevel = true ∧
      env.wifiCheckBits.connected = true ∧ env.otaRet ≠ .ok ∧
      app_main env = (nvs_startup env.nvsRet1 env.nvsEraseRet env.nvsRet2).1 ++
        [.gpioConfigure, .gpioRead, .createOtaGroup, .createWifiGroup, .wifiStart,
         .wifiWait 10000, .createTask "ota_task", .otaWait ⟨false, true⟩,
         .deleteOtaGroup, .deleteWifiGroup, .createTask "app_main_task"]) := by
  by_cases hs : env.nvsSurvives = true
  · by_cases hb : should_enter_boot_mode env.pinLevel = true
    · by_cases hc : env.wifiCheckBits.connected = true
      · by_cases ho : env.otaRet = .ok
        · refine Or.inr (Or.inr (Or.inr (Or.inl ⟨hs, hb, hc, ho, ?_⟩)))
          rw [app_main_of_survives env hs, if_pos hb, update_branch_otaSuccess env hc ho]
          simp
        · refine Or.inr (Or.inr (Or.inr (Or.inr ⟨hs, hb, hc, ho, ?_⟩)))
          rw [app_main_of_survives env hs, if_pos hb, update_branch_otaFail env hc ho]
          simp
      · have hc2 : env.wifiCheckBits.connected = false := by simpa using hc
        refine Or.inr (Or.inr (Or.inl ⟨hs, hb, hc2, ?_⟩))
        rw [app_main_of_survives env hs, if_pos hb, update_branch_noWifi env hc2]
        simp
    · have hb2 : should_enter_boot_mode env.pinLevel = false := by simpa using hb
      refine Or.inr (Or.inl ⟨hs, hb2, ?_⟩)
      rw [app_main_of_survives env hs, if_neg hb]
      simp
  · have hs2 : env.nvsSurvives = false := by simpa using hs
    exact Or.inl ⟨hs2, app_main_of_fatal env hs2⟩

/-- Any OTA-wait step in the trace happens in a surviving, update-mode,
WiFi-connected boot cycle, and the bits it observes are exactly those the
OTA task set. -/
theorem otaWait_mem_app_main {env : Env} {bits : OtaBits}
    (h : BootStep.otaWait bits ∈ app_main env) :
    env.nvsSurvives = true ∧ should_enter_boot_mode env.pinLevel = true ∧
      env.wifiCheckBits.connected = true ∧ bits = ota_task_bits env.otaRet := by
  rcases app_main_shape env with ⟨hs, he⟩ | ⟨hs, hb, he⟩ | ⟨hs, hb, hc, he⟩ |
    ⟨hs, hb, hc, ho, he⟩ | ⟨hs, hb, hc, ho, he⟩
  · rw [he] at h
    exact absurd h (not_mem_nvs_startup (by simp) (by simp) (by simp))
  · rw [he] at h
    exact absurd h (not_mem_append_nvs (by simp) (by simp) (by simp) (by simp))
  · rw [he] at h
    exact absurd h (not_mem_append_nvs (by simp) (by simp) (by simp) (by simp))
  · rw [he] at h
    refine ⟨hs, hb, hc, ?_⟩
    rcases List.mem_append.mp h with hm | hm
    · exact absurd hm (not_mem_nvs_startup (by simp) (by simp) (by simp))
    · simp at hm
      simp [hm, ota_task_bits, ho]
  · rw [he] at h
    refine ⟨hs, hb, hc, ?_⟩
    rcases List.mem_append.mp h with hm | hm
    · exact absurd hm (not_mem_nvs_startup (by simp) (by simp) (by simp))
    · simp at hm
      simp [hm, ota_task_bits, ho]

/-- A restart step in the trace happens only in a surviving, update-mode,
WiFi-connected boot cycle whose OTA attempt returned `ESP_OK`. -/
theorem restart_mem_app_main {env : Env} (h : BootStep.restart ∈ app_main env) :
    env.nvsSurvives = true ∧ should_enter_boot_mode env.pinLevel = true ∧
      env.wifiCheckBits.connected = true ∧ env.otaRet = .ok := by
  rcases app_main_shape env with ⟨hs, he⟩ | ⟨hs, hb, he⟩ | ⟨hs, hb, hc, he⟩ |
    ⟨hs, hb, hc, ho, he⟩ | ⟨hs, hb, hc, ho, he⟩
  · rw [he] at h
    exact absurd h (not_mem_nvs_startup (by simp) (by simp) (by simp))
  · rw [he] at h
    exact absurd h (not_mem_append_nvs (by simp) (by simp) (by simp) (by simp))
  · rw [he] at h
    exact absurd h (not_mem_append_nvs (by simp) (by simp) (by simp) (by simp))
  · exact ⟨hs, hb, hc, ho⟩
  · rw [he] at h
    exact absurd h (not_mem_append_nvs (by simp) (by simp) (by simp) (by simp))

/-! ## Claims -/

/-- Claim C1: `should_enter_boot_mode` selects update mode exactly when the
sampled boot-pin level equals 0 and normal mode for any non-zero level; in
normal mode the sequencer performs no WiFi bring-up and never creates the
OTA task, going directly from the pin sample to the application handoff. -/
theorem C1_boot_mode_decision :
    (∀ level : Nat, should_enter_boot_mode level = true ↔ level = 0) ∧
    (∀ env : Env, should_enter_boot_mode env.pinLevel = false →
      BootStep.wifiStart ∉ app_main env ∧
      BootStep.createTask "ota_task" ∉ app_main env ∧
      (env.nvsSurvives = true →
        app_main env =
          (nvs_startup env.nvsRet1 env.nvsEraseRet env.nvsRet2).1 ++
            [BootStep.gpioConfigure, BootStep.gpioRead,
             BootStep.createTask "app_main_task"])) := by
  constructor
  · intro level
    simp [should_enter_boot_mode]
  · intro env h
    by_cases hs : env.nvsSurvives = true
    · rw [app_main_of_survives env hs, h]
      refine ⟨?_, ?_, fun _ => by simp⟩
      · simp only [if_neg Bool.false_ne_true, List.append_assoc, List.mem_append]
        push_neg
        exact ⟨not_mem_nvs_startup (by simp) (by simp) (by simp), by simp⟩
      · simp only [if_neg Bool.false_ne_true, List.append_assoc, List.mem_append]
        push_neg
        exact ⟨not_mem_nvs_startup (by simp) (by simp) (by simp), by simp⟩
    · rw [app_main_of_fatal env (by revert hs; cases h2 : env.nvsSurvives <;> simp)]
      exact ⟨not_mem_nvs_startup (by simp) (by simp) (by simp),
        not_mem_nvs_startup (by simp) (by simp) (by simp),
        fun hsurv => absurd hsurv hs⟩

/-- Witness for C1 at the concrete environment with pin level 1: normal
mode is selected and the sequencer neither starts WiFi nor creates the
OTA task. -/
theorem C1_boot_mode_decision_witness :
    should_enter_boot_mode 1 = false ∧
    BootStep.createTask "ota_task" ∉
      app_main ⟨1, .ok, .ok, .ok, ⟨false, false⟩, ⟨false, false⟩, .ok⟩ :=
  ⟨by decide,
   (C1_boot_mode_decision.2 ⟨1, .ok, .ok, .ok, ⟨false, false⟩, ⟨false, false⟩, .ok⟩
      (by decide)).2.1⟩

/-- Counterexample to claim C2 as stated: in a well-formed environment
where the connected bit was NOT set when the bounded 10000 ms wait inside
`wifi_init` returned (so WiFi did not reach the connected state within the
wait window) but is set by the time of the later `xEventGroupGetBits`
check, the OTA task IS created. -/
theorem C2_counterexample :
    Env.wf ⟨0, .ok, .ok, .ok, ⟨false, false⟩, ⟨true, false⟩, .fail 1⟩ = true ∧
    (⟨0, .ok, .ok, .ok, ⟨false, false⟩, ⟨true, false⟩,
        .fail 1⟩ : Env).wifiWaitBits.connected = false ∧
    BootStep.createTask "ota_task" ∈
      app_main ⟨0, .ok, .ok, .ok, ⟨false, false⟩, ⟨true, false⟩, .fail 1⟩ := by
  decide

/-- Claim C2 (amended): if the connected bit is not set at the moment of
the sequencer's post-wait `xEventGroupGetBits` check, the OTA task is
never created in that boot cycle. -/
theorem C2_ota_requires_connected_at_check (env : Env)
    (h : env.wifiCheckBits.connected = false) :
    BootStep.createTask "ota_task" ∉ app_main env := by
  by_cases hs : env.nvsSurvives = true
  · rw [app_main_of_survives env hs]
    by_cases hb : should_enter_boot_mode env.pinLevel = true
    · rw [if_pos hb, update_branch_noWifi env h]
      simp only [List.append_assoc, List.mem_append]
      push_neg
      exact ⟨not_mem_nvs_startup (by simp) (by simp) (by simp), by simp, by simp⟩
    · rw [if_neg hb]
      simp only [List.append_assoc, List.mem_append]
      push_neg
      exact ⟨not_mem_nvs_startup (by simp) (by simp) (by simp), by simp, by simp⟩
  · rw [app_main_of_fatal env (by revert hs; cases h2 : env.nvsSurvives <;> simp)]
    exact not_mem_nvs_startup (by simp) (by simp) (by simp)

/-- Witness for the amended C2 at a concrete environment where the
connected bit is unset at the check. -/
theorem C2_ota_requires_connected_at_check_witness :
    BootStep.createTask "ota_task" ∉
      app_main ⟨0, .ok, .ok, .ok, ⟨false, false⟩, ⟨false, true⟩, .ok⟩ :=
  C2_ota_requires_connected_at_check
    ⟨0, .ok, .ok, .ok, ⟨false, false⟩, ⟨false, true⟩, .ok⟩ (by decide)

/-- Claim C3: each run of the OTA task sets exactly one of the two outcome
bits — success when `esp_https_ota` returns `ESP_OK`, failure otherwise,
never both — and any bits the sequencer's untimed OTA wait observes have at
least one (and not both) of the two set, so the sequencer never proceeds
past that wait with neither bit set. -/
theorem C3_ota_outcome_exactly_one :
    (∀ ret : EspErr,
      (OtaAction.setSuccessBit ∈ ota_task ret ↔ ret = .ok) ∧
      (OtaAction.setFailBit ∈ ota_task ret ↔ ret ≠ .ok) ∧
      ((ota_task_bits ret).success = true ↔ ret = .ok) ∧
      ((ota_task_bits ret).fail = true ↔ ret ≠ .ok) ∧
      ¬((ota_task_bits ret).success = true ∧ (ota_task_bits ret).fail = true)) ∧
    (∀ (env : Env) (bits : OtaBits), BootStep.otaWait bits ∈ app_main env →
      (bits.success = true ∨ bits.fail = true) ∧
      ¬(bits.success = true ∧ bits.fail = true)) := by
  constructor
  · intro ret
    by_cases hr : ret = .ok <;> simp [ota_task, ota_task_bits, hr]
  · intro env bits hmem
    obtain ⟨-, -, -, hbits⟩ := otaWait_mem_app_main hmem
    by_cases ho : env.otaRet = .ok <;> simp [hbits, ota_task_bits, ho]

/-- Witness for C3 at a concrete run: with `esp_https_ota` failing, the
task sets the fail bit, not the success bit, and the bits at the
sequencer's OTA wait have exactly one bit set. -/
theorem C3_ota_outcome_exactly_one_witness :
    (OtaAction.setFailBit ∈ ota_task (.fail 257) ↔ (EspErr.fail 257) ≠ .ok) ∧
    ((OtaBits.mk false true).success = true ∨ (OtaBits.mk false true).fail = true) :=
  ⟨(C3_ota_outcome_exactly_one.1 (.fail 257)).2.1,
   (C3_ota_outcome_exactly_one.2 ⟨0, .ok, .ok, .ok, ⟨true, false⟩, ⟨true, false⟩, .fail 257⟩
      ⟨false, true⟩ (by decide)).1⟩

/-- Claim C4: whenever the sequencer observes the OTA success bit, a
device restart is issued; the restart is immediately preceded by the fixed
3000 ms grace delay (and occurs nowhere else), and nothing follows it —
in particular neither event-group deletion nor the application-task
creation occurs on the restart path. -/
theorem C4_restart_after_grace (env : Env) :
    (∀ bits : OtaBits, BootStep.otaWait bits ∈ app_main env →
      bits.success = true → BootStep.restart ∈ app_main env) ∧
    (BootStep.restart ∈ app_main env →
      ∃ pre, app_main env = pre ++ [BootStep.delayMs 3000, BootStep.restart] ∧
        BootStep.restart ∉ pre ∧ BootStep.delayMs 3000 ∉ pre ∧
        BootStep.deleteOtaGroup ∉ pre ∧ BootStep.deleteWifiGroup ∉ pre ∧
        BootStep.createTask "app_main_task" ∉ pre) := by
  constructor
  · intro bits hmem hsucc
    obtain ⟨hs, hb, hc, hbits⟩ := otaWait_mem_app_main hmem
    have ho : env.otaRet = .ok := by
      by_cases ho : env.otaRet = .ok
      · exact ho
      · rw [hbits] at hsucc
        simp [ota_task_bits, ho] at hsucc
    rw [app_main_of_survives env hs, if_pos hb, update_branch_otaSuccess env hc ho]
    simp
  · intro h
    obtain ⟨hs, hb, hc, ho⟩ := restart_mem_app_main h
    refine ⟨(nvs_startup env.nvsRet1 env.nvsEraseRet env.nvsRet2).1 ++
      [.gpioConfigure, .gpioRead, .createOtaGroup, .createWifiGroup, .wifiStart,
       .wifiWait 10000, .createTask "ota_task", .otaWait ⟨true, false⟩],
        ?_, ?_, ?_, ?_, ?_, ?_⟩
    · rw [app_main_of_survives env hs, if_pos hb, update_branch_otaSuccess env hc ho]
      simp
    · exact not_mem_append_nvs (by simp) (by simp) (by simp) (by simp)
    · exact not_mem_append_nvs (by simp) (by simp) (by simp) (by simp)
    · exact not_mem_append_nvs (by simp) (by simp) (by simp) (by simp)
    · exact not_mem_append_nvs (by simp) (by simp) (by simp) (by simp)
    · exact not_mem_append_nvs (by simp) (by simp) (by simp) (by simp)

/-- Witness for C4: in the all-nominal update-mode boot the observed
success bit leads to a restart in the trace. -/
theorem C4_restart_after_grace_witness :
    BootStep.restart ∈ app_main ⟨0, .ok, .ok, .ok, ⟨true, false⟩, ⟨true, false⟩, .ok⟩ :=
  (C4_restart_after_grace ⟨0, .ok, .ok, .ok, ⟨true, false⟩, ⟨true, false⟩, .ok⟩).1
    ⟨true, false⟩ (by decide) (by decide)

/-- Claim C5: if the first NVS initialization returns the no-free-pages or
new-version-found error, storage is erased and initialization retried
exactly once, any error remaining after that single retry halting the boot
on the fatal path; a failed erase also halts on the fatal path; any other
nonzero first result halts immediately; a clean first result needs no
retry; and storage initialization is the only fatal condition — every
surviving boot cycle, whatever its WiFi and OTA outcomes, is free of the
fatal step, while a fatal boot cycle ends inside the NVS block and never
reaches the application handoff. -/
theorem C5_nvs_retry_once_only_fatal :
    (∀ r1 er r2 : EspErr,
      (r1 = .errNvsNoFreePages ∨ r1 = .errNvsNewVersionFound) → er = .ok →
        nvs_startup r1 er r2 =
          (if r2 = .ok then ([.nvsInit, .nvsErase, .nvsInit], true)
           else ([.nvsInit, .nvsErase, .nvsInit, .fatal], false))) ∧
    (∀ r1 er r2 : EspErr,
      (r1 = .errNvsNoFreePages ∨ r1 = .errNvsNewVersionFound) → er ≠ .ok →
        nvs_startup r1 er r2 = ([.nvsInit, .nvsErase, .fatal], false)) ∧
    (∀ r1 er r2 : EspErr,
      ¬(r1 = .errNvsNoFreePages ∨ r1 = .errNvsNewVersionFound) → r1 ≠ .ok →
        nvs_startup r1 er r2 = ([.nvsInit, .fatal], false)) ∧
    (∀ er r2 : EspErr, nvs_startup .ok er r2 = ([.nvsInit], true)) ∧
    (∀ env : Env, env.nvsSurvives = true → BootStep.fatal ∉ app_main env) ∧
    (∀ env : Env, env.nvsSurvives = false →
      app_main env = (nvs_startup env.nvsRet1 env.nvsEraseRet env.nvsRet2).1 ∧
      BootStep.createTask "app_main_task" ∉ app_main env) := by
  refine ⟨?_, ?_, ?_, ?_, ?_, ?_⟩
  · intro r1 er r2 h1 h2
    by_cases h3 : r2 = .ok <;> simp [nvs_startup, h1, h2, h3]
  · intro r1 er r2 h1 h2
    simp [nvs_startup, h1, h2]
  · intro r1 er r2 h1 h2
    simp [nvs_startup, h1, h2]
  · intro er r2
    simp [nvs_startup]
  · intro env hs
    rcases app_main_shape env with ⟨hs2, he⟩ | ⟨hs2, hb, he⟩ | ⟨hs2, hb, hc, he⟩ |
      ⟨hs2, hb, hc, ho, he⟩ | ⟨hs2, hb, hc, ho, he⟩
    · rw [hs] at hs2
      exact absurd hs2 (by decide)
    · rw [he]
      exact fatal_not_mem_append hs (by simp)
    · rw [he]
      exact fatal_not_mem_append hs (by simp)
    · rw [he]
      exact fatal_not_mem_append hs (by simp)
    · rw [he]
      exact fatal_not_mem_append hs (by simp)
  · intro env hsf
    have he := app_main_of_fatal env hsf
    refine ⟨he, ?_⟩
    rw [he]
    exact not_mem_nvs_startup (by simp) (by simp) (by simp)

/-- Witness for C5 at concrete inputs: a no-free-pages first result with a
clean retry yields exactly one erase and one reinitialization and
survives; a clean boot with a failing OTA never hits the fatal step; a
second initialization failure is fatal and never reaches the handoff. -/
theorem C5_nvs_retry_once_only_fatal_witness :
    nvs_startup .errNvsNoFreePages .ok .ok = ([.nvsInit, .nvsErase, .nvsInit], true) ∧
    BootStep.fatal ∉ app_main ⟨0, .ok, .ok, .ok, ⟨false, true⟩, ⟨false, true⟩, .fail 1⟩ ∧
    BootStep.createTask "app_main_task" ∉
      app_main ⟨0, .errNvsNoFreePages, .ok, .fail 2, ⟨true, false⟩, ⟨true, false⟩, .ok⟩ := by
  refine ⟨?_, ?_, ?_⟩
  · have h := C5_nvs_retry_once_only_fatal.1 .errNvsNoFreePages .ok .ok (by decide) (by decide)
    simpa using h
  · exact C5_nvs_retry_once_only_fatal.2.2.2.2.1
      ⟨0, .ok, .ok, .ok, ⟨false, true⟩, ⟨false, true⟩, .fail 1⟩ (by decide)
  · exact (C5_nvs_retry_once_only_fatal.2.2.2.2.2
      ⟨0, .errNvsNoFreePages, .ok, .fail 2, ⟨true, false⟩, ⟨true, false⟩, .ok⟩ (by decide)).2

theorem countP_nvs_startup (r1 er r2 : EspErr) (p : BootStep → Bool)
    (h1 : p .nvsInit = false) (h2 : p .nvsErase = false) (h3 : p .fatal = false) :
    List.countP p (nvs_startup r1 er r2).1 = 0 := by
  unfold nvs_startup
  split <;> (try split) <;> (try split) <;>
    simp [List.countP_cons, List.countP_nil, h1, h2, h3]

/-- Claim C6: for every failure outcome in the update-mode branch — WiFi
not connected at the check (covering both the 10 s timeout and the
explicit failure signal) or an OTA failure — the sequencer neither
restarts the device nor halts fatally, makes exactly one WiFi attempt and
at most one OTA-task launch (no in-cycle retry), and ends at the
application handoff, running the currently flashed firmware. -/
theorem C6_failures_fall_through (env : Env)
    (hs : env.nvsSurvives = true)
    (hb : should_enter_boot_mode env.pinLevel = true)
    (hfail : env.wifiCheckBits.connected = false ∨ env.otaRet ≠ .ok) :
    BootStep.restart ∉ app_main env ∧ BootStep.fatal ∉ app_main env ∧
    (∃ pre, app_main env = pre ++ [BootStep.createTask "app_main_task"]) ∧
    List.countP (fun a => a == BootStep.wifiStart) (app_main env) = 1 ∧
    List.countP (fun a => a == BootStep.createTask "ota_task") (app_main env) ≤ 1 := by
  rcases app_main_shape env with ⟨hs2, he⟩ | ⟨hs2, hb2, he⟩ | ⟨hs2, hb2, hc, he⟩ |
    ⟨hs2, hb2, hc, ho, he⟩ | ⟨hs2, hb2, hc, ho, he⟩
  · rw [hs] at hs2
    exact absurd hs2 (by decide)
  · rw [hb] at hb2
    exact absurd hb2 (by decide)
  · rw [he]
    refine ⟨not_mem_append_nvs (by simp) (by simp) (by simp) (by simp),
      fatal_not_mem_append hs (by simp),
      ⟨(nvs_startup env.nvsRet1 env.nvsEraseRet env.nvsRet2).1 ++
        [.gpioConfigure, .gpioRead, .createOtaGroup, .createWifiGroup, .wifiStart,
         .wifiWait 10000, .deleteOtaGroup, .deleteWifiGroup], by simp⟩, ?_, ?_⟩
    · rw [List.countP_append, countP_nvs_startup _ _ _ _ rfl rfl rfl]
      rfl
    · rw [List.countP_append, countP_nvs_startup _ _ _ _ rfl rfl rfl]
      decide
  · rcases hfail with hf | hf
    · rw [hf] at hc
      exact absurd hc (by decide)
    · exact absurd ho hf
  · rw [he]
    refine ⟨not_mem_append_nvs (by simp) (by simp) (by simp) (by simp),
      fatal_not_mem_append hs (by simp),
      ⟨(nvs_startup env.nvsRet1 env.nvsEraseRet env.nvsRet2).1 ++
        [.gpioConfigure, .gpioRead, .createOtaGroup, .createWifiGroup, .wifiStart,
         .wifiWait 10000, .createTask "ota_task", .otaWait ⟨false, true⟩,
         .deleteOtaGroup, .deleteWifiGroup], by simp⟩, ?_, ?_⟩
    · rw [List.countP_append, countP_nvs_startup _ _ _ _ rfl rfl rfl]
      rfl
    · rw [List.countP_append, countP_nvs_startup _ _ _ _ rfl rfl rfl]
      decide

/-- Witness for C6: with WiFi never connected, the boot cycle neither
restarts nor halts and ends at the application handoff. -/
theorem C6_failures_fall_through_witness :
    BootStep.restart ∉
      app_main ⟨0, .ok, .ok, .ok, ⟨false, false⟩, ⟨false, false⟩, .ok⟩ ∧
    (∃ pre, app_main ⟨0, .ok, .ok, .ok, ⟨false, false⟩, ⟨false, false⟩, .ok⟩ =
      pre ++ [BootStep.createTask "app_main_task"]) := by
  obtain ⟨h1, -, h3, -⟩ := C6_failures_fall_through
    ⟨0, .ok, .ok, .ok, ⟨false, false⟩, ⟨false, false⟩, .ok⟩
    (by decide) (by decide) (Or.inl (by decide))
  exact ⟨h1, h3⟩

/-- Claim C7: on each exit from the update-mode branch that continues into
the application (the WiFi-not-connected path and the OTA-failure path),
the trace ends with exactly the release of the OTA event group, the
release of the WiFi event group, and the application handoff — the
teardown consists of those two deletions and nothing else, and neither
group was deleted earlier. -/
theorem C7_teardown_releases_groups (env : Env)
    (hs : env.nvsSurvives = true)
    (hb : should_enter_boot_mode env.pinLevel = true)
    (hfail : env.wifiCheckBits.connected = false ∨ env.otaRet ≠ .ok) :
    ∃ pre, app_main env =
      pre ++ [BootStep.deleteOtaGroup, BootStep.deleteWifiGroup,
              BootStep.createTask "app_main_task"] ∧
      BootStep.deleteOtaGroup ∉ pre ∧ BootStep.deleteWifiGroup ∉ pre := by
  rcases app_main_shape env with ⟨hs2, he⟩ | ⟨hs2, hb2, he⟩ | ⟨hs2, hb2, hc, he⟩ |
    ⟨hs2, hb2, hc, ho, he⟩ | ⟨hs2, hb2, hc, ho, he⟩
  · rw [hs] at hs2
    exact absurd hs2 (by decide)
  · rw [hb] at hb2
    exact absurd hb2 (by decide)
  · exact ⟨(nvs_startup env.nvsRet1 env.nvsEraseRet env.nvsRet2).1 ++
      [.gpioConfigure, .gpioRead, .createOtaGroup, .createWifiGroup, .wifiStart,
       .wifiWait 10000],
      by rw [he]; simp,
      not_mem_append_nvs (by simp) (by simp) (by simp) (by simp),
      not_mem_append_nvs (by simp) (by simp) (by simp) (by simp)⟩
  · rcases hfail with hf | hf
    · rw [hf] at hc
      exact absurd hc (by decide)
    · exact absurd ho hf
  · exact ⟨(nvs_startup env.nvsRet1 env.nvsEraseRet env.nvsRet2).1 ++
      [.gpioConfigure, .gpioRead, .createOtaGroup, .createWifiGroup, .wifiStart,
       .wifiWait 10000, .createTask "ota_task", .otaWait ⟨false, true⟩],
      by rw [he]; simp,
      not_mem_append_nvs (by simp) (by simp) (by simp) (by simp),
      not_mem_append_nvs (by simp) (by simp) (by simp) (by simp)⟩

/-- Witness for C7: with a failing OTA, both event groups are released
right before the application handoff. -/
theorem C7_teardown_releases_groups_witness :
    ∃ pre, app_main ⟨0, .ok, .ok, .ok, ⟨true, false⟩, ⟨true, false⟩, .fail 1⟩ =
      pre ++ [BootStep.deleteOtaGroup, BootStep.deleteWifiGroup,
              BootStep.createTask "app_main_task"] ∧
      BootStep.deleteOtaGroup ∉ pre ∧ BootStep.deleteWifiGroup ∉ pre :=
  C7_teardown_releases_groups ⟨0, .ok, .ok, .ok, ⟨true, false⟩, ⟨true, false⟩, .fail 1⟩
    (by decide) (by decide) (Or.inr (by decide))

/-- Claim C8: every invocation of the OTA task makes exactly one
download-and-flash attempt, and every attempt uses the fixed
configuration: the pinned HTTPS firmware URL, certificate-bundle
validation attached, a 30000 ms I/O timeout, keep-alive enabled, a
2048-byte receive buffer, and a 1024-byte transmit buffer. -/
theorem C8_ota_single_fixed_config :
    ota_http_config.url = FIRMWARE_URL ∧
    FIRMWARE_URL =
      "https://raw.githubusercontent.com/kbmkrishnamali1992-hub/ESP32_TRACKER_V1/main/firmware.bin" ∧
    ota_http_config.crt_bundle_attach = true ∧
    ota_http_config.timeout_ms = 30000 ∧
    ota_http_config.keep_alive_enable = true ∧
    ota_http_config.buffer_size = 2048 ∧
    ota_http_config.buffer_size_tx = 1024 ∧
    (∀ ret : EspErr, List.countP OtaAction.isOtaAttempt (ota_task ret) = 1) ∧
    (∀ (ret : EspErr) (cfg : EspHttpClientConfig),
      OtaAction.espHttpsOta cfg ∈ ota_task ret → cfg = ota_http_config) := by
  refine ⟨rfl, rfl, rfl, rfl, rfl, rfl, rfl, ?_, ?_⟩
  · intro ret
    by_cases hr : ret = .ok <;>
      simp [ota_task, hr, OtaAction.isOtaAttempt, List.countP_cons, List.countP_nil]
  · intro ret cfg h
    by_cases hr : ret = .ok <;> simp [ota_task, hr] at h <;> exact h

/-- Witness for C8: a concrete successful run makes exactly one attempt,
and the attempt in it carries the fixed configuration. -/
theorem C8_ota_single_fixed_config_witness :
    List.countP OtaAction.isOtaAttempt (ota_task .ok) = 1 ∧
    (⟨FIRMWARE_URL, true, 30000, true, 2048, 1024⟩ : EspHttpClientConfig) =
      ota_http_config := by
  obtain ⟨-, -, -, -, -, -, -, hcount, hmem⟩ := C8_ota_single_fixed_config
  exact ⟨hcount .ok, hmem .ok ⟨FIRMWARE_URL, true, 30000, true, 2048, 1024⟩ (by decide)⟩

/-- Claim C9: in a surviving update-mode boot cycle, the OTA task is
launched exactly when the connected bit is set at the post-wait
`xEventGroupGetBits` check — regardless of the fail bit and of what the
bounded wait had observed earlier (for example a transient disconnect
followed by a successful connection, or a connection arriving after the
10 s wait expired but before the check). -/
theorem C9_launch_depends_only_on_check_bit (env : Env)
    (hs : env.nvsSurvives = true)
    (hb : should_enter_boot_mode env.pinLevel = true) :
    BootStep.createTask "ota_task" ∈ app_main env ↔
      env.wifiCheckBits.connected = true := by
  constructor
  · intro h
    rcases app_main_shape env with ⟨hs2, he⟩ | ⟨hs2, hb2, he⟩ | ⟨hs2, hb2, hc, he⟩ |
      ⟨hs2, hb2, hc, ho, he⟩ | ⟨hs2, hb2, hc, ho, he⟩
    · rw [hs] at hs2
      exact absurd hs2 (by decide)
    · rw [hb] at hb2
      exact absurd hb2 (by decide)
    · rw [he] at h
      exact absurd h (not_mem_append_nvs (by simp) (by simp) (by simp) (by decide))
    · exact hc
    · exact hc
  · intro hc
    by_cases ho : env.otaRet = .ok
    · rw [app_main_of_survives env hs, if_pos hb, update_branch_otaSuccess env hc ho]
      simp
    · rw [app_main_of_survives env hs, if_pos hb, update_branch_otaFail env hc ho]
      simp

/-- Witness for C9 at an environment where both WiFi bits are set at the
check and the connected bit was not yet set when the bounded wait
returned: the OTA task is still launched. -/
theorem C9_launch_depends_only_on_check_bit_witness :
    Env.wf ⟨0, .ok, .ok, .ok, ⟨false, true⟩, ⟨true, true⟩, .fail 3⟩ = true ∧
    (⟨0, .ok, .ok, .ok, ⟨false, true⟩, ⟨true, true⟩,
        .fail 3⟩ : Env).wifiWaitBits.connected = false ∧
    (⟨0, .ok, .ok, .ok, ⟨false, true⟩, ⟨true, true⟩,
        .fail 3⟩ : Env).wifiCheckBits.fail = true ∧
    BootStep.createTask "ota_task" ∈
      app_main ⟨0, .ok, .ok, .ok, ⟨false, true⟩, ⟨true, true⟩, .fail 3⟩ :=
  ⟨by decide, by decide, by decide,
   (C9_launch_depends_only_on_check_bit
      ⟨0, .ok, .ok, .ok, ⟨false, true⟩, ⟨true, true⟩, .fail 3⟩
      (by decide) (by decide)).mpr (by decide)⟩

/-- Claim C10: the post-OTA-wait branching tests the success bit before
the fail bit, so if both outcome bits were set when the wait returned, the
success (restart) branch is taken and the failure branch is never
entered. -/
theorem C10_success_bit_priority :
    ota_wait_branch ⟨true, true⟩ = .restartDevice ∧
    (∀ bits : OtaBits, bits.success = true →
      ota_wait_branch bits = .restartDevice ∧
      ota_wait_branch bits ≠ .continueAfterFail) := by
  refine ⟨rfl, fun bits h => ?_⟩
  rw [ota_wait_branch]
  simp [h]

/-- Witness for C10 at the both-bits-set state. -/
theorem C10_success_bit_priority_witness :
    ota_wait_branch ⟨true, true⟩ = .restartDevice ∧
    ota_wait_branch ⟨true, true⟩ ≠ .continueAfterFail :=
  ⟨(C10_success_bit_priority.2 ⟨true, true⟩ rfl).1,
   (C10_success_bit_priority.2 ⟨true, true⟩ rfl).2⟩
